import Mathlib

/-!
Shallow embedding of `src/queries.js`: a MongoDB teaching script that runs
CRUD operations, advanced queries, aggregation pipelines and index/explain
diagnostics over a `books` collection, printing results to a console.

The collection state is a `List Book`; each driver call is modelled as a
function of the state (mutating calls return the new state).  Console output
is modelled structurally as a list of `OutEntry` values.
-/

/-- A document of the `books` collection (data model of the script). -/
structure Book where
  title : String
  author : String
  genre : String
  published_year : Nat
  price : ℚ
  in_stock : Bool
deriving DecidableEq, Repr

/-- Collection state: the sequence of documents in natural (insertion) order. -/
abbrev Coll := List Book

/-- A JSON-like value, the shape of what the script passes to `console.log`
and `JSON.stringify`.  `Array.isArray` corresponds to the `arr` constructor. -/
inductive JsValue where
  | null
  | bool (b : Bool)
  | num (q : ℚ)
  | str (s : String)
  | arr (vs : List JsValue)
  | obj (fields : List (String × JsValue))

/-- Whether a value is a JS array (`Array.isArray`). -/
def JsValue.isArr : JsValue → Bool
  | .arr _ => true
  | _ => false

/-- One console output line/record.  `line` is a plain `console.log` of a
string, `prettyJson` is a `JSON.stringify(·, null, 2)` dump, `rawValue` is a
direct `console.log` of a non-string value. -/
inductive OutEntry where
  | line (s : String)
  | prettyJson (v : JsValue)
  | rawValue (v : JsValue)

/-- `printResult(title, result)` from `queries.js`: prints a section header;
an array prints the notice `No documents found.` when empty and a pretty
JSON dump otherwise; any non-array value is printed directly. -/
def printResult (title : String) (result : JsValue) : List OutEntry :=
  [.line ("--- " ++ title ++ " ---")] ++
  match result with
  | .arr [] => [.line "No documents found."]
  | .arr vs => [.prettyJson (.arr vs)]
  | v => [.rawValue v]

/-- JSON encoding of a full book document. -/
def encodeBook (b : Book) : JsValue :=
  .obj [("title", .str b.title), ("author", .str b.author),
        ("genre", .str b.genre), ("published_year", .num b.published_year),
        ("price", .num b.price), ("in_stock", .bool b.in_stock)]

/-- JSON encoding of a find result (array of documents). -/
def encodeBooks (l : List Book) : JsValue := .arr (l.map encodeBook)

/-! ### Driver operations (collection-level), as used by the script. -/

/-- `collection.find(filter).toArray()`: all matching documents in
collection order.  Read-only. -/
def findDocs (p : Book → Bool) (s : Coll) : List Book := s.filter p

/-- `collection.findOne(filter)`: the first matching document, or `null`. -/
def findOneDoc (p : Book → Bool) (s : Coll) : Option Book := s.find? p

/-- `collection.updateOne(filter, {$set: ...})`: applies the patch to the
first matching document only, leaving every other document unchanged. -/
def updateOneDoc (p : Book → Bool) (u : Book → Book) : Coll → Coll
  | [] => []
  | b :: bs => if p b then u b :: bs else b :: updateOneDoc p u bs

/-- `collection.deleteOne(filter)`: removes the first matching document. -/
def deleteOneDoc (p : Book → Bool) : Coll → Coll
  | [] => []
  | b :: bs => if p b then bs else b :: deleteOneDoc p bs

/-- Result object of `updateOne` (`matchedCount`/`modifiedCount`). -/
def updateOneResult (p : Book → Bool) (u : Book → Book) (s : Coll) : JsValue :=
  match s.find? p with
  | none => .obj [("matchedCount", .num 0), ("modifiedCount", .num 0)]
  | some b => .obj [("matchedCount", .num 1),
      ("modifiedCount", .num (if u b = b then 0 else 1))]

/-- Result object of `deleteOne` (`deletedCount`). -/
def deleteOneResult (p : Book → Bool) (s : Coll) : JsValue :=
  .obj [("deletedCount", .num (if s.any p then 1 else 0))]

/-- The `$set: {price: v}` patch. -/
def setPrice (v : ℚ) (b : Book) : Book := { b with price := v }

/-- Filter `{title: t}`. -/
def titleIs (t : String) (b : Book) : Bool := b.title == t

/-- `runTask2(collection)`: basic CRUD operations.  Returns the console
output and the collection state after the task (the update of The Hobbit
and the deletion of Moby Dick are the only writes). -/
def runTask2 (s : Coll) : List OutEntry × Coll :=
  let log0 := [OutEntry.line "--- Running Task 2: Basic CRUD Operations ---"]
  let fiction := findDocs (fun b => b.genre == "Fiction") s
  let l1 := printResult "Task 2.1: Find all Fiction books" (encodeBooks fiction)
  let recent := findDocs (fun b => b.published_year > 1950) s
  let l2 := printResult "Task 2.2: Find books published after 1950" (encodeBooks recent)
  let orwell := findDocs (fun b => b.author == "George Orwell") s
  let l3 := printResult "Task 2.3: Find books by George Orwell" (encodeBooks orwell)
  let l4 := printResult "Task 2.4: Update price of The Hobbit"
      (updateOneResult (titleIs "The Hobbit") (setPrice (1599/100)) s)
  let s1 := updateOneDoc (titleIs "The Hobbit") (setPrice (1599/100)) s
  let hob := findOneDoc (titleIs "The Hobbit") s1
  let l5 := printResult "Task 2.4: Verifying update for The Hobbit"
      (hob.elim JsValue.null encodeBook)
  let l6 := printResult "Task 2.5: Delete Moby Dick"
      (deleteOneResult (titleIs "Moby Dick") s1)
  let s2 := deleteOneDoc (titleIs "Moby Dick") s1
  (log0 ++ l1 ++ l2 ++ l3 ++ l4 ++ l5 ++ l6, s2)

/-! ### Task 3: advanced queries (projection, sort, pagination). -/

/-- Projection `{title: 1, author: 1, price: 1, _id: 0}` of one document. -/
def encodeTAP (b : Book) : JsValue :=
  .obj [("title", .str b.title), ("author", .str b.author), ("price", .num b.price)]

/-- Projection `{title: 1, price: 1, _id: 0}` of one document. -/
def encodeTP (b : Book) : JsValue :=
  .obj [("title", .str b.title), ("price", .num b.price)]

/-- Projection `{title: 1, published_year: 1, _id: 0}` of one document. -/
def encodeTY (b : Book) : JsValue :=
  .obj [("title", .str b.title), ("published_year", .num b.published_year)]

/-- `.sort({price: 1})`: ascending by price. -/
def sortedByPriceAsc (s : Coll) : Coll :=
  s.mergeSort (fun a b => decide (a.price ≤ b.price))

/-- `.sort({price: -1})`: descending by price. -/
def sortedByPriceDesc (s : Coll) : Coll :=
  s.mergeSort (fun a b => decide (b.price ≤ a.price))

/-- `.sort({published_year: 1})`: ascending by publication year. -/
def sortByYear (s : Coll) : Coll :=
  s.mergeSort (fun a b => decide (a.published_year ≤ b.published_year))

/-- Page 1 of the pagination: sort by year ascending, `skip(0).limit(5)`,
projected to `{title, published_year}`. -/
def page1 (s : Coll) : List JsValue := (((sortByYear s).drop 0).take 5).map encodeTY

/-- Page 2 of the pagination: sort by year ascending, `skip(5).limit(5)`,
projected to `{title, published_year}`. -/
def page2 (s : Coll) : List JsValue := (((sortByYear s).drop 5).take 5).map encodeTY

/-- `runTask3(collection)`: advanced queries.  Every operation is a `find`
chain, so the collection state is returned unchanged. -/
def runTask3 (s : Coll) : List OutEntry × Coll :=
  let log0 := [OutEntry.line "--- Running Task 3: Advanced Queries ---"]
  let inStockAndRecent := findDocs (fun b => b.in_stock && b.published_year > 1950) s
  let l1 := printResult "Task 3.1: Find in-stock books published after 1950"
      (encodeBooks inStockAndRecent)
  let l2 := printResult "Task 3.2: Project title, author, and price"
      (.arr (s.map encodeTAP))
  let l3 := printResult "Task 3.3: Sort by price ascending"
      (.arr ((sortedByPriceAsc s).map encodeTP))
  let l4 := printResult "Task 3.3: Sort by price descending"
      (.arr ((sortedByPriceDesc s).map encodeTP))
  let l5 := printResult "Task 3.4: Pagination - Page 1 (5 books)" (.arr (page1 s))
  let l6 := printResult "Task 3.4: Pagination - Page 2 (5 books)" (.arr (page2 s))
  (log0 ++ l1 ++ l2 ++ l3 ++ l4 ++ l5 ++ l6, s)

/-! ### Task 4: aggregation pipelines. -/

/-- Output row of the average-price-by-genre `$group` stage. -/
structure GenreRow where
  _id : String
  averagePrice : ℚ
  bookCount : Nat
deriving DecidableEq, Repr

/-- Output row of the author `$group` stage. -/
structure AuthorRow where
  _id : String
  numberOfBooks : Nat
deriving DecidableEq, Repr

/-- Output row of the decade pipeline after its `$project` stage:
exactly the fields `decade` and `count`, `_id` suppressed. -/
structure DecadeRow where
  decade : Nat
  count : Nat
deriving DecidableEq, Repr

/-- `$group: {_id: "$genre", averagePrice: {$avg: "$price"}, bookCount: {$sum: 1}}`:
one row per distinct genre, with the mean price and member count of its group. -/
def genreGroups (s : Coll) : List GenreRow :=
  (s.map (·.genre)).dedup.map (fun g =>
    let members := s.filter (fun b => b.genre == g)
    { _id := g,
      averagePrice := (members.map (·.price)).sum / (members.length : ℚ),
      bookCount := members.length })

/-- Task 4.1 pipeline: group by genre, then `$sort: {averagePrice: -1}`. -/
def avgPriceByGenre (s : Coll) : List GenreRow :=
  (genreGroups s).mergeSort (fun a b => decide (b.averagePrice ≤ a.averagePrice))

/-- `$group: {_id: "$author", numberOfBooks: {$sum: 1}}`. -/
def authorGroups (s : Coll) : List AuthorRow :=
  (s.map (·.author)).dedup.map (fun a =>
    { _id := a, numberOfBooks := s.countP (fun b => b.author == a) })

/-- Author pipeline after `$sort: {numberOfBooks: -1}`. -/
def authorGroupsSorted (s : Coll) : List AuthorRow :=
  (authorGroups s).mergeSort (fun x y => decide (y.numberOfBooks ≤ x.numberOfBooks))

/-- Task 4.2 pipeline: group by author, sort by count descending, `$limit: 1`. -/
def authorWithMostBooks (s : Coll) : List AuthorRow :=
  (authorGroupsSorted s).take 1

/-- The decade bucket key:
`$subtract: ["$published_year", {$mod: ["$published_year", 10]}]`. -/
def decadeKey (b : Book) : Nat := b.published_year - b.published_year % 10

/-- `$group: {_id: <decade key>, count: {$sum: 1}}`: one `(key, count)` pair
per distinct bucket. -/
def decadeGroups (s : Coll) : List (Nat × Nat) :=
  (s.map decadeKey).dedup.map (fun k => (k, s.countP (fun b => decadeKey b == k)))

/-- Decade pipeline after `$sort: {_id: 1}`. -/
def decadeGroupsSorted (s : Coll) : List (Nat × Nat) :=
  (decadeGroups s).mergeSort (fun x y => decide (x.1 ≤ y.1))

/-- Task 4.3 pipeline: group by decade bucket, sort by bucket ascending, then
`$project: {decade: "$_id", count: 1, _id: 0}`. -/
def booksByDecade (s : Coll) : List DecadeRow :=
  (decadeGroupsSorted s).map (fun x => { decade := x.1, count := x.2 })

/-- JSON encoding of a genre aggregation row. -/
def encodeGenreRow (g : GenreRow) : JsValue :=
  .obj [("_id", .str g._id), ("averagePrice", .num g.averagePrice),
        ("bookCount", .num g.bookCount)]

/-- JSON encoding of an author aggregation row. -/
def encodeAuthorRow (a : AuthorRow) : JsValue :=
  .obj [("_id", .str a._id), ("numberOfBooks", .num a.numberOfBooks)]

/-- JSON encoding of a decade aggregation row. -/
def encodeDecadeRow (d : DecadeRow) : JsValue :=
  .obj [("decade", .num d.decade), ("count", .num d.count)]

/-- `runTask4(collection)`: aggregation pipelines.  Aggregations are
read-only, so the collection state is returned unchanged. -/
def runTask4 (s : Coll) : List OutEntry × Coll :=
  let log0 := [OutEntry.line "--- Running Task 4: Aggregation Pipeline ---"]
  let l1 := printResult "Task 4.1: Average price by genre"
      (.arr ((avgPriceByGenre s).map encodeGenreRow))
  let l2 := printResult "Task 4.2: Author with the most books"
      (.arr ((authorWithMostBooks s).map encodeAuthorRow))
  let l3 := printResult "Task 4.3: Group books by publication decade"
      (.arr ((booksByDecade s).map encodeDecadeRow))
  (log0 ++ l1 ++ l2 ++ l3, s)

/-! ### Task 5: indexing and explain-plan analysis. -/

/-- The wrapped input stage of an execution stage (only its name is read). -/
structure InputStage where
  stage : String
deriving DecidableEq, Repr

/-- The top-level execution stage of a winning plan, possibly wrapping an
input stage (e.g. a FETCH whose `inputStage` is the actual scan). -/
structure ExecutionStages where
  stage : String
  inputStage : Option InputStage
deriving DecidableEq, Repr

/-- The `executionStats` section of an explain result. -/
structure ExecutionStats where
  executionTimeMillis : Nat
  totalDocsExamined : Nat
  executionStages : ExecutionStages
deriving DecidableEq, Repr

/-- An explain result as consumed by `analyzePlan`. -/
structure ExplainPlan where
  executionStats : ExecutionStats
deriving DecidableEq, Repr

/-- Human classification emitted by the plan analysis. -/
inductive Classification where
  | indexScan
  | fullCollectionScan
deriving DecidableEq, Repr

/-- What `analyzePlan` reports about one explain result. -/
structure PlanReport where
  executionTime : Nat
  docsExamined : Nat
  stageChain : List String
  classification : Option Classification
deriving DecidableEq, Repr

/-- The `analyzePlan` helper of Task 5: reads `executionStats`, takes the
top-level execution stage, descends into `inputStage` when present
(`winningStage.inputStage || winningStage`), and reports elapsed time,
documents examined, the stage name chain, and the classification
(IXSCAN means index scan, COLLSCAN means full collection scan, anything
else gets no classification). -/
def analyzePlan (p : ExplainPlan) : PlanReport :=
  let stats := p.executionStats
  let winningStage := stats.executionStages
  let scanStage := match winningStage.inputStage with
    | some st => st.stage
    | none => winningStage.stage
  { executionTime := stats.executionTimeMillis,
    docsExamined := stats.totalDocsExamined,
    stageChain := [winningStage.stage, scanStage],
    classification :=
      if scanStage = "IXSCAN" then some .indexScan
      else if scanStage = "COLLSCAN" then some .fullCollectionScan
      else none }

/-- Console output of one `analyzePlan` call. -/
def reportLog (title : String) (r : PlanReport) : List OutEntry :=
  [.line ("--- " ++ title ++ " ---"),
   .line ("Execution Time: " ++ toString r.executionTime ++ "ms"),
   .line ("Documents Examined: " ++ toString r.docsExamined),
   .line ("Winning Plan Stage: " ++ String.intercalate " -> " r.stageChain)]
  ++ match r.classification with
     | some .indexScan =>
        [.line "Analysis: Great! The query used an efficient index scan (IXSCAN)."]
     | some .fullCollectionScan =>
        [.line "Analysis: The query used a collection scan (COLLSCAN). An index was not used."]
     | none => []

/-- `runTask5(collection)`: each `createIndex` outcome is passed in as an
`Except` (ok: the index name, error: the message), each of the two explain
calls as an `ExplainPlan`.  Each index creation sits in its own try/catch:
a failure is logged and the task continues. -/
def runTask5 (titleIdx compoundIdx : Except String String) (p1 p2 : ExplainPlan) :
    List OutEntry :=
  [.line "--- Running Task 5: Indexing ---",
   .line "This task creates indexes and analyzes query performance."]
  ++ (match titleIdx with
      | .ok r => [.line ("Task 5.1: Index on title created successfully: " ++ r)]
      | .error m => [.line ("Error creating title index: " ++ m)])
  ++ (match compoundIdx with
      | .ok r => [.line ("Task 5.2: Compound index on author and published_year created successfully: " ++ r)]
      | .error m => [.line ("Error creating compound index: " ++ m)])
  ++ [.line "Task 5.3: Using explain to analyze query performance"]
  ++ reportLog "Explain plan for query on indexed title field" (analyzePlan p1)
  ++ reportLog "Explain plan for query on compound indexed fields (author, published_year)" (analyzePlan p2)

/-! ### The main workflow: try / catch / finally. -/

/-- Runs a sequence of awaited operations, each either producing a console
entry or throwing: collects output up to the first throw, which aborts the
rest of the sequence. -/
def runSeq : List (Except String OutEntry) → List OutEntry × Option String
  | [] => ([], none)
  | .ok l :: rest =>
      let r := runSeq rest
      (l :: r.1, r.2)
  | .error e :: _ => ([], some e)

/-- `main()`: connect (possibly failing), then run the task operations in
sequence inside the single top-level `try`; any error is printed by the one
`catch`; the `finally` closes the client and prints the close message. -/
def mainLog (connect : Except String Unit) (ops : List (Except String OutEntry)) :
    List OutEntry :=
  (match connect with
   | .error e => [.line ("An error occurred: " ++ e)]
   | .ok _ =>
      let r := runSeq ops
      [.line "Connected successfully to MongoDB server"] ++ r.1 ++
      (match r.2 with
       | some e => [.line ("An error occurred: " ++ e)]
       | none => []))
  ++ [.line "Connection to MongoDB closed."]

/-! ## Verified properties -/

/-- The scan stage the plan-analysis spec says the helper resolves to: the
wrapped input stage when one exists, otherwise the top-level stage itself. -/
def resolvedScanStage (p : ExplainPlan) : String :=
  match p.executionStats.executionStages.inputStage with
  | some st => st.stage
  | none => p.executionStats.executionStages.stage

/-- C1: for every explain result, `analyzePlan` reports the elapsed time and
documents examined from the execution stats, the stage name chain of the
top-level stage followed by the resolved scan stage (descending exactly one
level into the wrapped input stage when one exists), and classifies the
winning strategy as an index scan exactly when the resolved scan stage is
IXSCAN and as a full collection scan exactly when it is COLLSCAN. -/
theorem analyzePlan_classifies (p : ExplainPlan) :
    (analyzePlan p).executionTime = p.executionStats.executionTimeMillis ∧
    (analyzePlan p).docsExamined = p.executionStats.totalDocsExamined ∧
    (analyzePlan p).stageChain =
      [p.executionStats.executionStages.stage, resolvedScanStage p] ∧
    ((analyzePlan p).classification = some Classification.indexScan ↔
      resolvedScanStage p = "IXSCAN") ∧
    ((analyzePlan p).classification = some Classification.fullCollectionScan ↔
      resolvedScanStage p = "COLLSCAN") := by
  obtain ⟨time, docs, st, inp⟩ := p
  cases inp <;>
    · refine ⟨rfl, rfl, rfl, ?_, ?_⟩ <;>
        simp only [analyzePlan, resolvedScanStage] <;> split_ifs <;> simp_all

/-- C9: an empty array result prints the section header and the literal
notice `No documents found.`; a non-empty array result prints the header and
a pretty-printed JSON dump of the records. -/
theorem printResult_empty_notice (t : String) (v : JsValue) (vs : List JsValue) :
    printResult t (.arr []) =
      [.line ("--- " ++ t ++ " ---"), .line "No documents found."] ∧
    printResult t (.arr (v :: vs)) =
      [.line ("--- " ++ t ++ " ---"), .prettyJson (.arr (v :: vs))] :=
  ⟨rfl, rfl⟩

/-- C2: for every collection state, page 1 (sort by `published_year`
ascending, skip 0, limit 5) concatenated with page 2 (skip 5, limit 5)
equals the first 10 records of the fully sorted sequence: no overlap, no
gap. -/
theorem pagination_pages_eq_first_ten (s : Coll) :
    page1 s ++ page2 s = ((sortByYear s).take 10).map encodeTY := by
  have h : (sortByYear s).take 10 =
      (sortByYear s).take 5 ++ ((sortByYear s).drop 5).take 5 :=
    List.take_add (sortByYear s) 5 5
  rw [page1, page2, List.drop_zero, h, List.map_append]

/-- Running a sequence of successful operations collects all their output
and no error. -/
theorem runSeq_map_ok (pre : List OutEntry) : runSeq (pre.map .ok) = (pre, none) := by
  induction pre with
  | nil => rfl
  | cons a l ih => simp [runSeq, ih]

/-- A throwing operation aborts the rest of the sequence: output stops at
the last successful operation and the error is reported. -/
theorem runSeq_map_ok_append_error (pre : List OutEntry) (e : String)
    (post : List (Except String OutEntry)) :
    runSeq (pre.map .ok ++ .error e :: post) = (pre, some e) := by
  induction pre with
  | nil => rfl
  | cons a l ih => simp [runSeq, ih]

/-- C8: whatever the connect outcome and operation outcomes, the last console
entry of `main` is the connection-close message; when an operation throws,
the operations after it produce no output (they do not run) and the single
top-level handler prints the error before the close message; when every
operation succeeds, all output appears followed by the close message. -/
theorem main_top_level_handler (connect : Except String Unit)
    (ops : List (Except String OutEntry)) (pre : List OutEntry) (e : String)
    (post : List (Except String OutEntry)) :
    (mainLog connect ops).getLast? = some (.line "Connection to MongoDB closed.") ∧
    mainLog (.ok ()) (pre.map .ok ++ .error e :: post) =
      .line "Connected successfully to MongoDB server" ::
        (pre ++ [.line ("An error occurred: " ++ e),
                 .line "Connection to MongoDB closed."]) ∧
    mainLog (.ok ()) (pre.map .ok) =
      .line "Connected successfully to MongoDB server" ::
        (pre ++ [.line "Connection to MongoDB closed."]) := by
  refine ⟨?_, ?_, ?_⟩
  · unfold mainLog
    exact List.getLast?_concat _
  · simp [mainLog, runSeq_map_ok_append_error]
  · simp [mainLog, runSeq_map_ok]

/-- C7: a failing index creation is caught at its own creation site: its
message is logged, the log after the first creation site is identical
whether the first creation failed or succeeded (so a first failure prevents
neither the second creation attempt nor the explain inspections), and the
two explain-plan reports are a suffix of the task output for every
combination of creation outcomes. -/
theorem task5_index_error_isolated (e r : String) (r1 r2 : Except String String)
    (p1 p2 : ExplainPlan) :
    OutEntry.line ("Error creating title index: " ++ e) ∈
      runTask5 (.error e) r2 p1 p2 ∧
    OutEntry.line ("Error creating compound index: " ++ e) ∈
      runTask5 r1 (.error e) p1 p2 ∧
    (runTask5 (.error e) r2 p1 p2).drop 3 = (runTask5 (.ok r) r2 p1 p2).drop 3 ∧
    ∃ pre, runTask5 r1 r2 p1 p2 =
      pre ++ reportLog "Explain plan for query on indexed title field" (analyzePlan p1)
          ++ reportLog "Explain plan for query on compound indexed fields (author, published_year)"
            (analyzePlan p2) := by
  refine ⟨?_, ?_, ?_, ?_⟩
  · simp [runTask5]
  · simp [runTask5]
  · cases r2 <;> rfl
  · cases r1 <;> cases r2 <;> exact ⟨_, rfl⟩

/-- Setting the price leaves the title untouched. -/
theorem titleIs_setPrice (t : String) (v : ℚ) (b : Book) :
    titleIs t (setPrice v b) = titleIs t b := rfl

/-- After updating the first title match to price `v`, reading the first
title match back yields price `v`, provided some record carries the title. -/
theorem findOne_updateOne_setPrice (t : String) (v : ℚ) (s : Coll)
    (h : ∃ b ∈ s, b.title = t) :
    (findOneDoc (titleIs t) (updateOneDoc (titleIs t) (setPrice v) s)).map (·.price)
      = some v := by
  induction s with
  | nil => simp at h
  | cons b bs ih =>
    by_cases hb : titleIs t b
    · have hb2 : titleIs t (setPrice v b) = true := hb
      show (List.find? (titleIs t)
        (updateOneDoc (titleIs t) (setPrice v) (b :: bs))).map (·.price) = some v
      rw [show updateOneDoc (titleIs t) (setPrice v) (b :: bs) = setPrice v b :: bs from
        by simp [updateOneDoc, hb]]
      rw [List.find?_cons_of_pos _ hb2]
      rfl
    · have h2 : ∃ x ∈ bs, x.title = t := by
        rcases h with ⟨x, hx, ht⟩
        rcases List.mem_cons.mp hx with hx | hx
        · exact absurd (by simp [titleIs, ht]) (hx ▸ hb)
        · exact ⟨x, hx, ht⟩
      show (List.find? (titleIs t)
        (updateOneDoc (titleIs t) (setPrice v) (b :: bs))).map (·.price) = some v
      rw [show updateOneDoc (titleIs t) (setPrice v) (b :: bs)
            = b :: updateOneDoc (titleIs t) (setPrice v) bs from by simp [updateOneDoc, hb]]
      rw [List.find?_cons_of_neg _ hb]
      exact ih h2

/-- Re-applying the same price update is a no-op on the collection state. -/
theorem updateOne_setPrice_idem (t : String) (v : ℚ) (s : Coll) :
    updateOneDoc (titleIs t) (setPrice v) (updateOneDoc (titleIs t) (setPrice v) s)
      = updateOneDoc (titleIs t) (setPrice v) s := by
  induction s with
  | nil => rfl
  | cons b bs ih =>
    by_cases hb : titleIs t b
    · have hb2 : titleIs t (setPrice v b) = true := hb
      rw [show updateOneDoc (titleIs t) (setPrice v) (b :: bs) = setPrice v b :: bs from
        by simp [updateOneDoc, hb]]
      rw [show updateOneDoc (titleIs t) (setPrice v) (setPrice v b :: bs)
            = setPrice v (setPrice v b) :: bs from by simp [updateOneDoc, hb2]]
      rfl
    · simp [updateOneDoc, hb, ih]

/-- Each per-key member count of a grouping equals the key's multiplicity
in the list of keys. -/
theorem countP_key_eq_count {κ : Type} [DecidableEq κ] (key : Book → κ) (s : Coll) (k : κ) :
    s.countP (fun b => key b == k) = (s.map key).count k := by
  rw [List.count_eq_countP, List.countP_map]
  rfl

/-- Summing the per-key member counts over the distinct keys of a
collection recovers the collection's length. -/
theorem sum_groupCounts {κ : Type} [DecidableEq κ] (key : Book → κ) (s : Coll) :
    (((s.map key).dedup).map (fun k => s.countP (fun b => key b == k))).sum = s.length := by
  have h1 : ((s.map key).dedup).map (fun k => s.countP (fun b => key b == k))
      = ((s.map key).dedup).map (fun k => (s.map key).count k) :=
    List.map_congr_left (fun k _ => countP_key_eq_count key s k)
  rw [h1, List.sum_map_count_dedup_eq_length, List.length_map]

/-- Sorting a list does not change the sum of a projection over it. -/
theorem sum_map_mergeSort {α : Type} (le : α → α → Bool) (f : α → ℕ) (l : List α) :
    ((l.mergeSort le).map f).sum = (l.map f).sum :=
  ((List.mergeSort_perm l le).map f).sum_eq

/-- The `bookCount` column of the genre grouping is the per-genre member
count. -/
theorem genreGroups_bookCount (s : Coll) :
    (genreGroups s).map (·.bookCount) =
      ((s.map (·.genre)).dedup).map (fun g => s.countP (fun b => b.genre == g)) := by
  rw [genreGroups, List.map_map]
  apply List.map_congr_left
  intro g _
  show (s.filter (fun b => b.genre == g)).length = s.countP (fun b => b.genre == g)
  exact (List.countP_eq_length_filter _ _).symm

/-- C4: in each of the three Task 4 groupings (by genre, by author, by
decade bucket) the per-group counts (`bookCount`, `numberOfBooks`, `count`)
sum to the total number of records in the collection. -/
theorem aggregation_counts_total (s : Coll) :
    ((avgPriceByGenre s).map (·.bookCount)).sum = s.length ∧
    ((authorGroupsSorted s).map (·.numberOfBooks)).sum = s.length ∧
    ((booksByDecade s).map (·.count)).sum = s.length := by
  refine ⟨?_, ?_, ?_⟩
  · rw [avgPriceByGenre, sum_map_mergeSort, genreGroups_bookCount]
    exact sum_groupCounts (·.genre) s
  · rw [authorGroupsSorted, sum_map_mergeSort, authorGroups, List.map_map]
    exact sum_groupCounts (·.author) s
  · rw [booksByDecade, List.map_map, decadeGroupsSorted, sum_map_mergeSort,
      decadeGroups, List.map_map]
    exact sum_groupCounts decadeKey s

/-- C3: the decade aggregation keys each record by
`published_year − (published_year mod 10)`, reports for every output row
the number of records in that bucket, emits a row for a bucket key exactly
when some record falls in that bucket, and orders the rows strictly
ascending by bucket key (so there is one row per bucket); each row carries
exactly the fields `decade` and `count`. -/
theorem booksByDecade_spec (s : Coll) :
    (∀ b : Book, decadeKey b = b.published_year - b.published_year % 10) ∧
    (∀ r ∈ booksByDecade s, r.count = s.countP (fun b => decadeKey b == r.decade)) ∧
    (∀ k : Nat, (∃ r ∈ booksByDecade s, r.decade = k) ↔ ∃ b ∈ s, decadeKey b = k) ∧
    (booksByDecade s).Pairwise (fun a b => a.decade < b.decade) := by
  have hperm : List.Perm (decadeGroupsSorted s) (decadeGroups s) :=
    List.mergeSort_perm _ _
  refine ⟨fun _ => rfl, ?_, ?_, ?_⟩
  · intro r hr
    rw [booksByDecade] at hr
    obtain ⟨x, hx, rfl⟩ := List.mem_map.mp hr
    obtain ⟨k, hk, rfl⟩ := List.mem_map.mp (hperm.mem_iff.mp hx)
    rfl
  · intro k
    constructor
    · rintro ⟨r, hr, rfl⟩
      rw [booksByDecade] at hr
      obtain ⟨x, hx, rfl⟩ := List.mem_map.mp hr
      obtain ⟨k0, hk0, rfl⟩ := List.mem_map.mp (hperm.mem_iff.mp hx)
      obtain ⟨b, hb, hbe⟩ := List.mem_map.mp (List.mem_dedup.mp hk0)
      exact ⟨b, hb, hbe⟩
    · rintro ⟨b, hb, rfl⟩
      have hk : decadeKey b ∈ (s.map decadeKey).dedup :=
        List.mem_dedup.mpr (List.mem_map.mpr ⟨b, hb, rfl⟩)
      refine ⟨{ decade := decadeKey b,
                count := s.countP (fun x => decadeKey x == decadeKey b) }, ?_, rfl⟩
      rw [booksByDecade]
      refine List.mem_map.mpr ⟨(decadeKey b, s.countP (fun x => decadeKey x == decadeKey b)), ?_, rfl⟩
      exact hperm.mem_iff.mpr (List.mem_map.mpr ⟨decadeKey b, hk, rfl⟩)
  · have hsorted : (decadeGroupsSorted s).Pairwise (fun x y : Nat × Nat => x.1 ≤ y.1) := by
      refine List.Pairwise.imp (fun h => of_decide_eq_true h)
        (List.sorted_mergeSort ?_ ?_ (decadeGroups s))
      · intro a b c h1 h2
        simp only [decide_eq_true_eq] at h1 h2 ⊢
        omega
      · intro a b
        simp only [Bool.or_eq_true, decide_eq_true_eq]
        exact Nat.le_total _ _
    have hfst : ((decadeGroups s).map Prod.fst) = (s.map decadeKey).dedup := by
      rw [decadeGroups, List.map_map]
      exact List.map_id _
    have hnodup : ((decadeGroupsSorted s).map Prod.fst).Nodup :=
      ((hperm.map Prod.fst).nodup_iff).mpr (hfst ▸ List.nodup_dedup _)
    have hne : (decadeGroupsSorted s).Pairwise (fun x y : Nat × Nat => x.1 ≠ y.1) :=
      List.pairwise_map.mp hnodup
    have hlt : (decadeGroupsSorted s).Pairwise (fun x y : Nat × Nat => x.1 < y.1) :=
      (hsorted.and hne).imp (fun h => Nat.lt_of_le_of_ne h.1 h.2)
    rw [booksByDecade]
    exact List.pairwise_map.mpr hlt

/-- When at most one record matches, updating the first match is the same
as updating every match pointwise: every non-matching record is unchanged. -/
theorem updateOneDoc_eq_map (p : Book → Bool) (u : Book → Book) (s : Coll)
    (h : s.countP p ≤ 1) :
    updateOneDoc p u s = s.map (fun b => if p b then u b else b) := by
  induction s with
  | nil => rfl
  | cons b bs ih =>
    rw [List.countP_cons] at h
    by_cases hb : p b
    · have h0 : ∀ x ∈ bs, ¬ p x := by
        apply List.countP_eq_zero.mp
        simp only [hb, if_true] at h
        omega
      have hmap : bs.map (fun x => if p x then u x else x) = bs := by
        conv_rhs => rw [← List.map_id bs]
        exact List.map_congr_left (fun x hx => by simp [h0 x hx])
      simp [updateOneDoc, hb, hmap]
    · have hle : bs.countP p ≤ 1 := by simp only [hb, if_false] at h; omega
      simp [updateOneDoc, hb, ih hle]

/-- When at most one record matches, deleting the first match is the same
as filtering out every match: every non-matching record is kept in order. -/
theorem deleteOneDoc_eq_filter (p : Book → Bool) (s : Coll)
    (h : s.countP p ≤ 1) :
    deleteOneDoc p s = s.filter (fun b => !(p b)) := by
  induction s with
  | nil => rfl
  | cons b bs ih =>
    rw [List.countP_cons] at h
    by_cases hb : p b
    · have h0 : ∀ x ∈ bs, ¬ p x := by
        apply List.countP_eq_zero.mp
        simp only [hb, if_true] at h
        omega
      simp only [deleteOneDoc, hb, if_true, List.filter_cons, Bool.not_true]
      exact (List.filter_eq_self.mpr fun x hx => by simp [h0 x hx]).symm
    · have hle : bs.countP p ≤ 1 := by simp only [hb, if_false] at h; omega
      simp [deleteOneDoc, hb, ih hle]

/-- C6: when the collection holds exactly one record titled The Hobbit and
exactly one titled Moby Dick, running Task 2 produces exactly the state in
which only the Hobbit record has its price set (all other fields and
records pointwise unchanged, in order, nothing created) and only the Moby
Dick record is removed; the size shrinks by exactly one, a subsequent find
on Moby Dick is empty, and Tasks 3 and 4 leave the state unchanged. -/
theorem task2_frame (s : Coll)
    (h1 : s.countP (titleIs "The Hobbit") = 1)
    (h2 : s.countP (titleIs "Moby Dick") = 1) :
    (runTask2 s).2 =
      (s.map (fun b => if titleIs "The Hobbit" b then setPrice (1599/100) b else b)).filter
        (fun b => !(titleIs "Moby Dick" b)) ∧
    (runTask2 s).2.length + 1 = s.length ∧
    findDocs (titleIs "Moby Dick") (runTask2 s).2 = [] ∧
    (runTask3 s).2 = s ∧
    (runTask4 s).2 = s := by
  have hs1 : updateOneDoc (titleIs "The Hobbit") (setPrice (1599/100)) s =
      s.map (fun b => if titleIs "The Hobbit" b then setPrice (1599/100) b else b) :=
    updateOneDoc_eq_map _ _ _ (le_of_eq h1)
  have hcomp : (titleIs "Moby Dick") ∘
      (fun b => if titleIs "The Hobbit" b then setPrice (1599/100) b else b) =
      titleIs "Moby Dick" := by
    funext b
    by_cases hb : titleIs "The Hobbit" b <;> simp [Function.comp, hb, titleIs_setPrice]
  have hcnt : (s.map (fun b =>
      if titleIs "The Hobbit" b then setPrice (1599/100) b else b)).countP
      (titleIs "Moby Dick") = 1 := by
    rw [List.countP_map, hcomp]
    exact h2
  have hstate : (runTask2 s).2 =
      (s.map (fun b => if titleIs "The Hobbit" b then setPrice (1599/100) b else b)).filter
        (fun b => !(titleIs "Moby Dick" b)) := by
    show deleteOneDoc (titleIs "Moby Dick")
        (updateOneDoc (titleIs "The Hobbit") (setPrice (1599/100)) s) = _
    rw [hs1, deleteOneDoc_eq_filter _ _ (le_of_eq hcnt)]
  refine ⟨hstate, ?_, ?_, rfl, rfl⟩
  · rw [hstate]
    have hsplit := List.length_eq_length_filter_add
      (l := s.map (fun b => if titleIs "The Hobbit" b then setPrice (1599/100) b else b))
      (titleIs "Moby Dick")
    have hml : ((s.map (fun b =>
        if titleIs "The Hobbit" b then setPrice (1599/100) b else b)).filter
        (titleIs "Moby Dick")).length = 1 := by
      rw [← List.countP_eq_length_filter]
      exact hcnt
    have hlen : (s.map (fun b =>
        if titleIs "The Hobbit" b then setPrice (1599/100) b else b)).length = s.length :=
      List.length_map _ _
    omega
  · rw [findDocs, hstate, List.filter_filter]
    simp

/-- Sample record mirroring the seeded Hobbit document. -/
def sampleHobbit : Book :=
  ⟨"The Hobbit", "J.R.R. Tolkien", "Fantasy", 1937, 1250/100, true⟩

/-- Sample record mirroring the seeded Moby Dick document. -/
def sampleMoby : Book :=
  ⟨"Moby Dick", "Herman Melville", "Adventure", 1851, 950/100, false⟩

/-- Two-record sample collection with one Hobbit and one Moby Dick. -/
def sampleColl : Coll := [sampleHobbit, sampleMoby]

/-- Concrete instance of C6 on the two-record sample collection. -/
theorem task2_frame_witness :
    sampleColl.countP (titleIs "The Hobbit") = 1 ∧
    sampleColl.countP (titleIs "Moby Dick") = 1 ∧
    ((runTask2 sampleColl).2 =
      (sampleColl.map (fun b =>
        if titleIs "The Hobbit" b then setPrice (1599/100) b else b)).filter
        (fun b => !(titleIs "Moby Dick" b)) ∧
    (runTask2 sampleColl).2.length + 1 = sampleColl.length ∧
    findDocs (titleIs "Moby Dick") (runTask2 sampleColl).2 = [] ∧
    (runTask3 sampleColl).2 = sampleColl ∧
    (runTask4 sampleColl).2 = sampleColl) :=
  ⟨by decide, by decide, task2_frame sampleColl (by decide) (by decide)⟩

/-- The section header string can never collide with the empty-result
notice. -/
theorem header_ne_notice (t : String) :
    ("--- " ++ t ++ " ---") ≠ "No documents found." := by
  intro h
  have h2 := congrArg String.data h
  simp [String.data_append] at h2

/-- Updating the first match of a predicate nothing satisfies is a no-op. -/
theorem updateOneDoc_of_no_match (p : Book → Bool) (u : Book → Book) (s : Coll)
    (h : ∀ b ∈ s, ¬ p b) : updateOneDoc p u s = s := by
  induction s with
  | nil => rfl
  | cons b bs ih =>
    have hb := h b (List.mem_cons_self b bs)
    simp [updateOneDoc, hb, ih (fun x hx => h x (List.mem_cons_of_mem _ hx))]

/-- C10: the empty-set notice applies only to array results: any non-array
value (update result, delete result, or a single-record re-read) is printed
directly after the header, and the notice never appears for it; in
particular, when no record is titled The Hobbit, the Task 2 re-read prints
the null value itself, never the notice. -/
theorem printResult_non_array (t : String) (v : JsValue) (hv : v.isArr = false)
    (s : Coll) (hs : ∀ b ∈ s, b.title ≠ "The Hobbit") :
    printResult t v = [.line ("--- " ++ t ++ " ---"), .rawValue v] ∧
    OutEntry.line "No documents found." ∉ printResult t v ∧
    [OutEntry.line "--- Task 2.4: Verifying update for The Hobbit ---",
     OutEntry.rawValue JsValue.null] <:+: (runTask2 s).1 := by
  have h1 : printResult t v = [.line ("--- " ++ t ++ " ---"), .rawValue v] := by
    cases v
    case arr vs => simp [JsValue.isArr] at hv
    all_goals rfl
  refine ⟨h1, ?_, ?_⟩
  · rw [h1]
    intro hmem
    rcases List.mem_cons.mp hmem with h | h
    · exact absurd (OutEntry.line.inj h).symm (header_ne_notice t)
    · simp at h
  · have hup : updateOneDoc (titleIs "The Hobbit") (setPrice (1599/100)) s = s :=
      updateOneDoc_of_no_match _ _ _ (fun b hb => by simp [titleIs, hs b hb])
    have hfind : List.find? (titleIs "The Hobbit") s = none :=
      List.find?_eq_none.mpr (fun b hb => by simp [titleIs, hs b hb])
    refine ⟨OutEntry.line "--- Running Task 2: Basic CRUD Operations ---" ::
        (printResult "Task 2.1: Find all Fiction books"
          (encodeBooks (findDocs (fun b => b.genre == "Fiction") s)) ++
         printResult "Task 2.2: Find books published after 1950"
          (encodeBooks (findDocs (fun b => b.published_year > 1950) s)) ++
         printResult "Task 2.3: Find books by George Orwell"
          (encodeBooks (findDocs (fun b => b.author == "George Orwell") s)) ++
         printResult "Task 2.4: Update price of The Hobbit"
          (updateOneResult (titleIs "The Hobbit") (setPrice (1599/100)) s)),
        printResult "Task 2.5: Delete Moby Dick"
          (deleteOneResult (titleIs "Moby Dick") s), ?_⟩
    simp [runTask2, hup, findOneDoc, hfind, printResult, Option.elim]

/-- Concrete instance of C10: the null re-read on the empty collection. -/
theorem printResult_non_array_witness :
    JsValue.isArr JsValue.null = false ∧
    (∀ b ∈ ([] : Coll), b.title ≠ "The Hobbit") ∧
    (printResult "T" JsValue.null =
      [.line ("--- " ++ "T" ++ " ---"), .rawValue JsValue.null] ∧
     OutEntry.line "No documents found." ∉ printResult "T" JsValue.null ∧
     [OutEntry.line "--- Task 2.4: Verifying update for The Hobbit ---",
      OutEntry.rawValue JsValue.null] <:+: (runTask2 ([] : Coll)).1) :=
  ⟨rfl, by simp, printResult_non_array "T" JsValue.null rfl [] (by simp)⟩

/-- C5: on every collection state containing a record titled The Hobbit,
running the Task 2 update (set price to 15.99 on the first title match) and
re-reading that title yields price 15.99 exactly, and re-applying the same
update leaves the collection state (hence every subsequent read) unchanged. -/
theorem hobbit_update_read_idempotent (s : Coll)
    (h : ∃ b ∈ s, b.title = "The Hobbit") :
    (findOneDoc (titleIs "The Hobbit")
        (updateOneDoc (titleIs "The Hobbit") (setPrice (1599/100)) s)).map (·.price)
      = some (1599/100) ∧
    updateOneDoc (titleIs "The Hobbit") (setPrice (1599/100))
        (updateOneDoc (titleIs "The Hobbit") (setPrice (1599/100)) s)
      = updateOneDoc (titleIs "The Hobbit") (setPrice (1599/100)) s :=
  ⟨findOne_updateOne_setPrice _ _ _ h, updateOne_setPrice_idem _ _ _⟩

/-- Concrete instance of C5 on a two-record collection. -/
theorem hobbit_update_read_idempotent_witness :
    (∃ b ∈ ([⟨"The Hobbit", "J.R.R. Tolkien", "Fantasy", 1937, 1250/100, true⟩,
             ⟨"Moby Dick", "Herman Melville", "Adventure", 1851, 950/100, false⟩] : Coll),
       b.title = "The Hobbit") ∧
    ((findOneDoc (titleIs "The Hobbit")
        (updateOneDoc (titleIs "The Hobbit") (setPrice (1599/100))
          ([⟨"The Hobbit", "J.R.R. Tolkien", "Fantasy", 1937, 1250/100, true⟩,
            ⟨"Moby Dick", "Herman Melville", "Adventure", 1851, 950/100, false⟩] : Coll))).map (·.price)
      = some (1599/100) ∧
    updateOneDoc (titleIs "The Hobbit") (setPrice (1599/100))
        (updateOneDoc (titleIs "The Hobbit") (setPrice (1599/100))
          ([⟨"The Hobbit", "J.R.R. Tolkien", "Fantasy", 1937, 1250/100, true⟩,
            ⟨"Moby Dick", "Herman Melville", "Adventure", 1851, 950/100, false⟩] : Coll))
      = updateOneDoc (titleIs "The Hobbit") (setPrice (1599/100))
          ([⟨"The Hobbit", "J.R.R. Tolkien", "Fantasy", 1937, 1250/100, true⟩,
            ⟨"Moby Dick", "Herman Melville", "Adventure", 1851, 950/100, false⟩] : Coll)) :=
  ⟨⟨_, List.mem_cons_self _ _, rfl⟩,
   hobbit_update_read_idempotent _ ⟨_, List.mem_cons_self _ _, rfl⟩⟩
